import Mathlib

/-!
Verification of the griddebugagent diagnostic orchestration engine.

Shallow embedding of the repository's Python sources:
  * `backend/rule_engine/evidence_collector.py` (EvidenceReport, EvidenceCollector)
  * `backend/rule_engine/rules.py`              (RuleResult, RuleEngine)
  * `backend/agents/agentic_pipeline.py`        (ReAct analysis loop, tool dispatch)
  * `backend/agents/iterative_debugger.py`      (fix-verify loops, fallback heuristics)

Python floats are modelled as rationals (ℚ); `None` as `Option`; Python dicts as
association lists or JSON-like values; exceptions as `Except`.  `round(x, n)` is
modelled as rounding to the nearest multiple of 10^-n (binary-float tie behaviour
is abstracted; no claim below depends on ties).
-/

namespace GridDebug

/-- JSON-like values modelling Python dict/list payloads (diagnostic results,
tool results). -/
inductive JVal where
  | null
  | bool (b : Bool)
  | num (q : ℚ)
  | str (s : String)
  | arr (xs : List JVal)
  | obj (xs : List (String × JVal))

/-- Python truthiness `bool(v)` for the modelled values. -/
def JVal.truthy : JVal → Bool
  | .null => false
  | .bool b => b
  | .num q => decide (q ≠ 0)
  | .str s => decide (s ≠ "")
  | .arr xs => !xs.isEmpty
  | .obj xs => !xs.isEmpty

/-- Python's `round(x, n)`: round to n decimal digits (ties abstracted). -/
def pyround (ndigits : ℕ) (q : ℚ) : ℚ :=
  ((round (q * (10 ^ ndigits : ℕ)) : ℤ) : ℚ) / ((10 ^ ndigits : ℕ) : ℚ)

/-- Left-pad a digit string with zeros to the given length. -/
def padZeros (len : ℕ) (s : String) : String :=
  (List.replicate (len - s.length) '0').asString ++ s

/-- Format a rational with `prec` decimal digits, as Python's format spec
`:.precf` does for the corresponding float (tie behaviour abstracted). -/
def fmtQ (prec : ℕ) (q : ℚ) : String :=
  let n : ℤ := round (q * ((10 ^ prec : ℕ) : ℚ))
  let sign := if n < 0 then "-" else ""
  let a := n.natAbs
  let ip := a / 10 ^ prec
  let fp := a % 10 ^ prec
  if prec = 0 then sign ++ toString ip
  else sign ++ toString ip ++ "." ++ padZeros prec (toString fp)

/-- An entry of `EvidenceReport.undervoltage_buses` / `overvoltage_buses`:
the dict `{"index": ..., "vm_pu": ...}` built in `_collect_bus_results`. -/
structure BusV where
  index : ℤ
  vm_pu : ℚ
deriving Repr, DecidableEq

/-- An entry of `EvidenceReport.overloaded_lines`. -/
structure LineOv where
  index : ℤ
  loading_pct : ℚ
  from_bus : ℤ
  to_bus : ℤ
deriving Repr, DecidableEq

/-- An entry of `EvidenceReport.overloaded_trafos`. -/
structure TrafoOv where
  index : ℤ
  loading_pct : ℚ
deriving Repr, DecidableEq

/-- An entry of `EvidenceReport.gens_at_q_limit`. -/
structure GenQ where
  index : ℤ
  q_mvar : ℚ
  limit : String
deriving Repr, DecidableEq

/-- An entry of `EvidenceReport.input_load_details`. -/
structure LoadDetail where
  index : ℤ
  bus : ℤ
  p_mw : ℚ
  q_mvar : ℚ
deriving Repr, DecidableEq

/-- An entry of `EvidenceReport.input_gen_details`. -/
structure GenDetail where
  index : ℤ
  bus : ℤ
  p_mw : ℚ
  max_p_mw : ℚ
  in_service : Bool
deriving Repr, DecidableEq

/-- `EvidenceReport` from `evidence_collector.py`: the structured snapshot of
solver evidence.  Field defaults mirror the Python dataclass defaults. -/
structure EvidenceReport where
  converged : Bool := false
  iterations : Option ℤ := none
  bus_count : ℕ := 0
  voltage_min_pu : Option ℚ := none
  voltage_max_pu : Option ℚ := none
  voltage_mean_pu : Option ℚ := none
  undervoltage_buses : List BusV := []
  overvoltage_buses : List BusV := []
  line_count : ℕ := 0
  max_line_loading_pct : Option ℚ := none
  overloaded_lines : List LineOv := []
  trafo_count : ℕ := 0
  max_trafo_loading_pct : Option ℚ := none
  overloaded_trafos : List TrafoOv := []
  gen_count : ℕ := 0
  total_gen_p_mw : ℚ := 0
  total_gen_q_mvar : ℚ := 0
  gens_at_q_limit : List GenQ := []
  total_load_p_mw : ℚ := 0
  total_load_q_mvar : ℚ := 0
  input_load_count : ℕ := 0
  input_load_details : List LoadDetail := []
  input_gen_count : ℕ := 0
  input_gen_details : List GenDetail := []
  input_ext_grid_count : ℕ := 0
  input_gen_capacity_mw : ℚ := 0
  active_power_mismatch_mw : ℚ := 0
  reactive_power_mismatch_mvar : ℚ := 0
  diagnostic_results : List (String × JVal) := []
  disconnected_buses : List ℤ := []

/-- The `evidence` dict attached to a `RuleResult`: each rule in `rules.py`
builds a dict of one fixed shape, modelled as a tagged union. -/
inductive Evidence where
  | empty
  | convergence (converged : Bool) (diagnostics : List (String × JVal))
  | buses (xs : List BusV)
  | lines (xs : List LineOv)
  | trafos (xs : List TrafoOv)
  | deficit_mw (x : ℚ)
  | deficit_mvar (x : ℚ)
  | disconnected (x : JVal)
  | generators (xs : List GenQ)
  | spread (x : ℚ)

/-- `RuleResult` from `rules.py`: output of a single rule evaluation. -/
structure RuleResult where
  rule_name : String
  triggered : Bool
  severity : String
  description : String
  evidence : Evidence := .empty
  suggested_actions : List String := []

namespace RuleEngine

/-- `RuleEngine._rule_nonconvergence`. -/
def rule_nonconvergence (rpt : EvidenceReport) : RuleResult :=
  { rule_name := "nonconvergence"
    triggered := !rpt.converged
    severity := "critical"
    description := "Power flow did not converge. The solver could not find a feasible operating point."
    evidence := .convergence rpt.converged rpt.diagnostic_results
    suggested_actions := [
      "Check for disconnected network sections",
      "Check for extreme load/generation imbalance",
      "Check for near-zero impedance elements",
      "Try running pp.diagnostic(net) for detailed checks"] }

/-- `RuleEngine._rule_undervoltage`. -/
def rule_undervoltage (rpt : EvidenceReport) : RuleResult :=
  { rule_name := "undervoltage"
    triggered := rpt.undervoltage_buses.length > 0
    severity := if rpt.undervoltage_buses.length ≤ 3 then "warning" else "critical"
    description := toString rpt.undervoltage_buses.length ++ " bus(es) below 0.95 pu voltage."
    evidence := .buses rpt.undervoltage_buses
    suggested_actions := [
      "Add shunt capacitors at affected buses",
      "Increase generator voltage setpoints",
      "Reduce loads at affected buses",
      "Check for excessive reactive power demand"] }

/-- `RuleEngine._rule_overvoltage`. -/
def rule_overvoltage (rpt : EvidenceReport) : RuleResult :=
  { rule_name := "overvoltage"
    triggered := rpt.overvoltage_buses.length > 0
    severity := if rpt.overvoltage_buses.length ≤ 3 then "warning" else "critical"
    description := toString rpt.overvoltage_buses.length ++ " bus(es) above 1.05 pu voltage."
    evidence := .buses rpt.overvoltage_buses
    suggested_actions := [
      "Reduce generator voltage setpoints",
      "Add shunt reactors at affected buses",
      "Increase loading to absorb excess generation"] }

/-- `RuleEngine._rule_line_overload`. -/
def rule_line_overload (rpt : EvidenceReport) : RuleResult :=
  let triggered := rpt.overloaded_lines.length > 0
  { rule_name := "line_overload"
    triggered := triggered
    severity := if triggered then "critical" else "info"
    description := toString rpt.overloaded_lines.length ++ " line(s) exceed 100% thermal loading."
    evidence := .lines rpt.overloaded_lines
    suggested_actions := [
      "Redistribute load across buses",
      "Add parallel lines to increase capacity",
      "Reduce load at downstream buses",
      "Add local generation to reduce power transfer"] }

/-- `RuleEngine._rule_trafo_overload`. -/
def rule_trafo_overload (rpt : EvidenceReport) : RuleResult :=
  let triggered := rpt.overloaded_trafos.length > 0
  { rule_name := "trafo_overload"
    triggered := triggered
    severity := if triggered then "critical" else "info"
    description := toString rpt.overloaded_trafos.length ++ " transformer(s) exceed 100% loading."
    evidence := .trafos rpt.overloaded_trafos
    suggested_actions := [
      "Add parallel transformer capacity",
      "Reduce load on the downstream side",
      "Re-route power through alternative paths"] }

/-- `RuleEngine._rule_generation_deficit`. -/
def rule_generation_deficit (rpt : EvidenceReport) : RuleResult :=
  let deficit := rpt.total_load_p_mw - rpt.total_gen_p_mw
  let triggered := decide (deficit > rpt.total_load_p_mw * (1/10))
  { rule_name := "generation_deficit"
    triggered := triggered
    severity := if triggered then "critical" else "info"
    description := "Active power deficit: " ++ fmtQ 1 deficit ++ " MW (gen=" ++
      fmtQ 1 rpt.total_gen_p_mw ++ ", load=" ++ fmtQ 1 rpt.total_load_p_mw ++ ")."
    evidence := .deficit_mw (pyround 2 deficit)
    suggested_actions := [
      "Add generation capacity",
      "Reduce total load (load shedding)",
      "Check if generators are out of service"] }

/-- `RuleEngine._rule_reactive_deficit`. -/
def rule_reactive_deficit (rpt : EvidenceReport) : RuleResult :=
  let deficit := rpt.total_load_q_mvar - rpt.total_gen_q_mvar
  let triggered := decide (deficit > rpt.total_load_q_mvar * (1/5))
  { rule_name := "reactive_deficit"
    triggered := triggered
    severity := if triggered then "warning" else "info"
    description := "Reactive power deficit: " ++ fmtQ 1 deficit ++ " Mvar."
    evidence := .deficit_mvar (pyround 2 deficit)
    suggested_actions := [
      "Add shunt capacitors",
      "Enable AVR on generators",
      "Reduce inductive loads"] }

/-- `RuleEngine._rule_disconnected_elements`.  `dict.get` with default `{}`
is modelled by association-list lookup with default `JVal.obj []`. -/
def rule_disconnected_elements (rpt : EvidenceReport) : RuleResult :=
  let disc := ((rpt.diagnostic_results.lookup "DisconnectedElements").getD (.obj []))
  { rule_name := "disconnected_elements"
    triggered := disc.truthy
    severity := if disc.truthy then "critical" else "info"
    description := "Disconnected network sections detected — buses without a path to ext_grid."
    evidence := .disconnected disc
    suggested_actions := [
      "Check for open switches or out-of-service lines",
      "Reconnect isolated buses",
      "Add local generation to isolated sections"] }

/-- `RuleEngine._rule_gen_at_q_limit`. -/
def rule_gen_at_q_limit (rpt : EvidenceReport) : RuleResult :=
  { rule_name := "gen_at_q_limit"
    triggered := rpt.gens_at_q_limit.length > 0
    severity := "warning"
    description := toString rpt.gens_at_q_limit.length ++ " generator(s) at reactive power limit."
    evidence := .generators rpt.gens_at_q_limit
    suggested_actions := [
      "Add reactive compensation",
      "Redistribute reactive power demand",
      "Check generator Q limits (min_q_mvar, max_q_mvar)"] }

/-- `RuleEngine._rule_extreme_voltage_spread`. -/
def rule_extreme_voltage_spread (rpt : EvidenceReport) : RuleResult :=
  match rpt.voltage_min_pu, rpt.voltage_max_pu with
  | some vmin, some vmax =>
    let spread := vmax - vmin
    let triggered := decide (spread > 3/20)
    { rule_name := "extreme_voltage_spread"
      triggered := triggered
      severity := if triggered then "warning" else "info"
      description := "Voltage spread: " ++ fmtQ 4 spread ++ " pu (" ++
        fmtQ 4 vmin ++ " – " ++ fmtQ 4 vmax ++ ")."
      evidence := .spread (pyround 4 spread)
      suggested_actions := [
        "Investigate buses at voltage extremes",
        "Add voltage regulation at remote buses",
        "Check transformer tap settings"] }
  | _, _ =>
    { rule_name := "extreme_voltage_spread"
      triggered := false
      severity := "info"
      description := "Cannot assess — no voltage data." }

/-- The fixed rule battery of `RuleEngine.evaluate`, in declaration order. -/
def all_rules : List (EvidenceReport → RuleResult) :=
  [rule_nonconvergence,
   rule_undervoltage,
   rule_overvoltage,
   rule_line_overload,
   rule_trafo_overload,
   rule_generation_deficit,
   rule_reactive_deficit,
   rule_disconnected_elements,
   rule_gen_at_q_limit,
   rule_extreme_voltage_spread]

/-- `RuleEngine.evaluate` generalised over the rule order: run the rules in the
given order and keep those that triggered. -/
def evaluateWith (rules : List (EvidenceReport → RuleResult))
    (report : EvidenceReport) : List RuleResult :=
  (rules.map (fun f => f report)).filter (fun r => r.triggered)

/-- `RuleEngine.evaluate`: run all rules in declaration order, keep triggered. -/
def evaluate (report : EvidenceReport) : List RuleResult :=
  evaluateWith all_rules report

/-- `RuleEngine.classify_failure`. -/
def classify_failure (results : List RuleResult) : String :=
  if results.isEmpty then "no_failure_detected"
  else
    let critical := results.filter (fun r => r.severity == "critical")
    if critical.any (fun r => r.rule_name == "nonconvergence") then "nonconvergence"
    else if results.any (fun r => r.rule_name == "line_overload" || r.rule_name == "trafo_overload") then "thermal_overload"
    else if results.any (fun r => r.rule_name == "undervoltage" || r.rule_name == "overvoltage") then "voltage_violation"
    else "other"

end RuleEngine

/-! ## The pandapower network, as read by the evidence collector

`evidence_collector.py` reads the tables of a `pandapowerNet`.  Each table is
modelled as a list of rows carrying exactly the columns the collector reads;
`NaN` / absent optional columns are modelled as `Option`. -/

/-- A row of `net.line` (columns read: `from_bus`, `to_bus`, pandas index). -/
structure LineRow where
  index : ℤ
  from_bus : ℤ
  to_bus : ℤ
deriving Repr, DecidableEq

/-- A row of `net.gen`. -/
structure GenRow where
  index : ℤ
  bus : ℤ
  p_mw : ℚ
  max_p_mw : Option ℚ
  min_q_mvar : Option ℚ
  max_q_mvar : Option ℚ
  in_service : Bool
deriving Repr, DecidableEq

/-- A row of `net.ext_grid`. -/
structure ExtGridRow where
  index : ℤ
  vm_pu : ℚ
  in_service : Bool
deriving Repr, DecidableEq

/-- A row of `net.load`. -/
structure LoadRow where
  index : ℤ
  bus : ℤ
  p_mw : ℚ
  q_mvar : ℚ
  in_service : Bool
deriving Repr, DecidableEq

/-- A row of `net.res_bus`. -/
structure ResBusRow where
  index : ℤ
  vm_pu : ℚ
deriving Repr, DecidableEq

/-- A row of `net.res_line` / `net.res_trafo` (column read: `loading_percent`). -/
structure ResLoadingRow where
  index : ℤ
  loading_percent : ℚ
deriving Repr, DecidableEq

/-- A row of `net.res_gen`. -/
structure ResGenRow where
  index : ℤ
  p_mw : ℚ
  q_mvar : ℚ
deriving Repr, DecidableEq

/-- A row of `net.res_ext_grid` / `net.res_sgen` (columns read: `p_mw`, `q_mvar`). -/
structure ResPQRow where
  p_mw : ℚ
  q_mvar : ℚ
deriving Repr, DecidableEq

/-- The pandapower network as seen by the collector.  `diag` models the external
`pandapower.diagnostic` collaborator: `some d` is the returned result dict,
`none` models the exception path of `_collect_diagnostics`. -/
structure Net where
  converged : Bool
  bus : List ℤ
  line : List LineRow
  trafo : List ℤ
  gen : List GenRow
  sgen : List ℤ
  ext_grid : List ExtGridRow
  load : List LoadRow
  res_bus : List ResBusRow
  res_line : List ResLoadingRow
  res_trafo : List ResLoadingRow
  res_gen : List ResGenRow
  res_sgen : List ResPQRow
  res_ext_grid : List ResPQRow
  diag : Option (List (String × JVal))

/-- Sum of a rational-valued column over the rows of a table. -/
def sumBy (xs : List α) (f : α → ℚ) : ℚ := (xs.map f).sum

/-- `EvidenceCollector` configuration (constructor defaults of the class). -/
structure EvidenceCollector where
  v_min : ℚ := 19/20
  v_max : ℚ := 21/20
  max_loading : ℚ := 100

namespace EvidenceCollector

/-- `EvidenceCollector._collect_bus_results`.  Only called under the guard
`converged ∧ res_bus ≠ []`, so the `getD 0` defaults for min/max are never
exercised. -/
def collect_bus_results (self : EvidenceCollector) (net : Net)
    (report : EvidenceReport) : EvidenceReport :=
  let vms := net.res_bus.map (fun r => r.vm_pu)
  { report with
    voltage_min_pu := some (vms.min?.getD 0)
    voltage_max_pu := some (vms.max?.getD 0)
    voltage_mean_pu := some (vms.sum / (vms.length : ℚ))
    undervoltage_buses :=
      (net.res_bus.filter (fun r => decide (r.vm_pu < self.v_min))).map
        (fun r => { index := r.index, vm_pu := pyround 4 r.vm_pu })
    overvoltage_buses :=
      (net.res_bus.filter (fun r => decide (r.vm_pu > self.v_max))).map
        (fun r => { index := r.index, vm_pu := pyround 4 r.vm_pu }) }

/-- `net.line.at[idx, "from_bus"]` / `"to_bus"`: row lookup by pandas index.
The default is never used when `res_line` indices come from `net.line`. -/
def line_at (net : Net) (idx : ℤ) : LineRow :=
  (net.line.find? (fun l => l.index == idx)).getD { index := idx, from_bus := 0, to_bus := 0 }

/-- `EvidenceCollector._collect_line_results`. -/
def collect_line_results (self : EvidenceCollector) (net : Net)
    (report : EvidenceReport) : EvidenceReport :=
  if !net.res_line.isEmpty then
    { report with
      max_line_loading_pct := some ((net.res_line.map (fun r => r.loading_percent)).max?.getD 0)
      overloaded_lines :=
        (net.res_line.filter (fun r => decide (r.loading_percent > self.max_loading))).map
          (fun r =>
            { index := r.index
              loading_pct := pyround 1 r.loading_percent
              from_bus := (line_at net r.index).from_bus
              to_bus := (line_at net r.index).to_bus }) }
  else report

/-- `EvidenceCollector._collect_trafo_results`. -/
def collect_trafo_results (self : EvidenceCollector) (net : Net)
    (report : EvidenceReport) : EvidenceReport :=
  if net.trafo.isEmpty then report
  else if !net.res_trafo.isEmpty then
    { report with
      max_trafo_loading_pct := some ((net.res_trafo.map (fun r => r.loading_percent)).max?.getD 0)
      overloaded_trafos :=
        (net.res_trafo.filter (fun r => decide (r.loading_percent > self.max_loading))).map
          (fun r => { index := r.index, loading_pct := pyround 1 r.loading_percent }) }
  else report

/-- The Q-limit scan of `_collect_gen_results`: iterate `net.gen` rows whose
index appears in `net.res_gen`; compare the actual reactive output against
95% of the declared limits.  `pd.notna` failures (NaN columns) are `none`. -/
def q_limit_scan (net : Net) : List GenQ :=
  net.gen.filterMap (fun row =>
    match net.res_gen.find? (fun rg => rg.index == row.index) with
    | none => none
    | some rg =>
      let at_max := match row.max_q_mvar with
        | some qmax => decide (rg.q_mvar ≥ qmax * (19/20))
        | none => false
      if at_max then some { index := row.index, q_mvar := pyround 2 rg.q_mvar, limit := "max" }
      else
        let at_min := match row.min_q_mvar with
          | some qmin => decide (rg.q_mvar ≤ qmin * (19/20))
          | none => false
        if at_min then some { index := row.index, q_mvar := pyround 2 rg.q_mvar, limit := "min" }
        else none)

/-- `EvidenceCollector._collect_gen_results`.  The Python `len(...) > 0` guards
around the sums are no-ops (an empty table sums to 0); the guard on the Q-limit
scan is likewise absorbed by the membership check inside `q_limit_scan`. -/
def collect_gen_results (net : Net) (report : EvidenceReport) : EvidenceReport :=
  let total_p := sumBy net.res_ext_grid (fun r => r.p_mw)
               + sumBy net.res_gen (fun r => r.p_mw)
               + sumBy net.res_sgen (fun r => r.p_mw)
  let total_q := sumBy net.res_ext_grid (fun r => r.q_mvar)
               + sumBy net.res_gen (fun r => r.q_mvar)
               + sumBy net.res_sgen (fun r => r.q_mvar)
  { report with
    total_gen_p_mw := pyround 2 total_p
    total_gen_q_mvar := pyround 2 total_q
    gens_at_q_limit := q_limit_scan net }

/-- `max_p_mw` with fallback to `p_mw` when the column is NaN/absent, as in
`_collect_input_data`. -/
def max_p_of (row : GenRow) : ℚ := row.max_p_mw.getD row.p_mw

/-- `EvidenceCollector._collect_input_data`.  `sort_values("p_mw",
ascending=False)` is modelled as a (stable) descending merge sort; no claim
depends on the order among equal loads. -/
def collect_input_data (net : Net) (report : EvidenceReport) : EvidenceReport :=
  let in_service_loads := net.load.filter (fun l => l.in_service)
  let load_sorted := in_service_loads.mergeSort (fun a b => decide (b.p_mw ≤ a.p_mw))
  let in_service_gens := net.gen.filter (fun g => g.in_service)
  { report with
    input_load_count := in_service_loads.length
    input_load_details := (load_sorted.take 15).map (fun row =>
      { index := row.index, bus := row.bus
        p_mw := pyround 2 row.p_mw, q_mvar := pyround 2 row.q_mvar })
    input_gen_count := in_service_gens.length
    input_ext_grid_count := (net.ext_grid.filter (fun e => e.in_service)).length
    input_gen_details := in_service_gens.map (fun row =>
      { index := row.index, bus := row.bus
        p_mw := pyround 2 row.p_mw, max_p_mw := pyround 2 (max_p_of row)
        in_service := row.in_service })
    input_gen_capacity_mw := pyround 2 (sumBy in_service_gens max_p_of) }

/-- `EvidenceCollector._compute_power_balance`. -/
def compute_power_balance (report : EvidenceReport) : EvidenceReport :=
  { report with
    active_power_mismatch_mw := pyround 2 (report.total_gen_p_mw - report.total_load_p_mw)
    reactive_power_mismatch_mvar := pyround 2 (report.total_gen_q_mvar - report.total_load_q_mvar) }

/-- `EvidenceCollector._collect_diagnostics`: the external diagnostic either
returns a result dict or raises, in which case the report records the fixed
error marker. -/
def collect_diagnostics (net : Net) (report : EvidenceReport) : EvidenceReport :=
  match net.diag with
  | some d => { report with diagnostic_results := d }
  | none => { report with diagnostic_results := [("error", JVal.str "Diagnostic failed")] }

/-- `EvidenceCollector.collect`: total function of the network model — the
embedding of the fact that `collect` works (and never raises) whether or not
the power flow converged. -/
def collect (self : EvidenceCollector) (net : Net) : EvidenceReport :=
  let report : EvidenceReport := {}
  let report := { report with converged := net.converged }
  let report := { report with
    bus_count := net.bus.length
    line_count := net.line.length
    trafo_count := net.trafo.length
    gen_count := net.gen.length + net.sgen.length + net.ext_grid.length }
  let in_service_loads := net.load.filter (fun l => l.in_service)
  let report := { report with
    total_load_p_mw := sumBy in_service_loads (fun l => l.p_mw)
    total_load_q_mvar := sumBy in_service_loads (fun l => l.q_mvar) }
  let report := collect_input_data net report
  let report :=
    if report.converged && !net.res_bus.isEmpty then
      compute_power_balance (collect_gen_results net
        (collect_trafo_results self net
          (collect_line_results self net
            (collect_bus_results self net report))))
    else report
  collect_diagnostics net report

end EvidenceCollector

/-! ## Tool dispatch (`_execute_tool` in both agents)

The tool implementations live in the repository's `tools/` package (not under
`src/`); the dispatcher only needs that a named tool, when invoked, either
returns a value or raises.  A tool body is therefore modelled as
`Args → Except String JVal` (`Except.error` = Python exception). -/

/-- A tool-call argument object (Python `dict` parsed from JSON). -/
def Args := List (String × JVal)

/-- Behaviour of the tool bodies the dispatcher's `tool_map` closes over. -/
def ToolImpl := String → Args → Except String JVal

/-- Result of one dispatch: a tool value, or the structured error dict
`{"error": msg}`.  The dispatcher never lets an exception escape. -/
inductive ToolRes where
  | ok (v : JVal)
  | errObj (msg : String)

/-- Keys of the `tool_map` in `AgenticPipelineAgent._execute_tool`. -/
def analysis_tool_names : List String :=
  ["get_network_summary", "get_bus_data", "get_line_data", "get_gen_data",
   "get_voltage_profile", "get_loading_profile", "get_power_balance",
   "run_power_flow", "run_dc_power_flow", "run_n1_contingency",
   "run_full_diagnostics", "check_overloads", "check_voltage_violations",
   "find_disconnected_areas"]

/-- The additional keys of the `tool_map` in
`IterativeDebuggerAgent._execute_tool`. -/
def modification_tool_names : List String :=
  ["shed_load", "adjust_generation", "add_reactive_compensation",
   "toggle_element", "adjust_voltage_setpoint", "scale_all_loads"]

/-- `_execute_tool` (both agents, parametrised by the dispatch table's key
set): unknown names yield `{"error": "Unknown tool: <name>"}`; a raising tool
is caught and yields `{"error": <message>}`. -/
def execute_tool (impl : ToolImpl) (tool_names : List String)
    (name : String) (args : Args) : ToolRes :=
  if tool_names.contains name then
    match impl name args with
    | .ok v => .ok v
    | .error e => .errObj e
  else .errObj ("Unknown tool: " ++ name)

/-! ## The ReAct analysis loop (`AgenticPipelineAgent._run_react_loop`) and the
LLM fix loop (`IterativeDebuggerAgent._llm_fix_loop`)

The reasoning engine is an external collaborator: given the transcript it
either returns a message (optional text content plus a possibly-empty list of
tool calls) or raises a transport error. -/

/-- One requested tool invocation. -/
structure ToolCall where
  id : String
  name : String
  args : Args

/-- A reasoning-engine message: `content` (`None` modelled as `none`) and the
`tool_calls` list (`None`/empty are both falsy in the Python check). -/
structure EngineMsg where
  content : Option String
  tool_calls : List ToolCall

/-- A turn of the conversation transcript. -/
inductive Turn where
  | system (text : String)
  | user (text : String)
  | assistant (m : EngineMsg)
  | tool (tool_call_id : String) (result : ToolRes)

/-- The reasoning-engine collaborator; `Except.error` models a transport /
API exception. -/
def Engine := List Turn → Except String EngineMsg

/-- An entry of `tool_calls_log` / `fix_history` for an executed tool. -/
structure ToolLogEntry where
  iteration : ℕ
  tool : String
  args : Args
  result : ToolRes

/-- Outcome of a loop run: terminal report, final transcript, tool log, and
the number of reasoning-engine invocations actually made. -/
structure LoopResult where
  report : String
  conversation : List Turn
  log : List ToolLogEntry
  engine_calls : ℕ

/-- `AgenticPipelineAgent.MAX_TOOL_CALLS`. -/
def MAX_TOOL_CALLS : ℕ := 10

/-- Body shared by both loops: one iteration asks the engine; zero requested
tools returns `content or ""`; otherwise every requested tool is dispatched in
order, appended to log and transcript, and the loop continues.  `fuel` is the
remaining iteration budget, `i` the current iteration index. -/
def react_loop_aux (impl : ToolImpl) (tool_names : List String) (engine : Engine)
    (err_head exhausted : String) (conv : List Turn) (log : List ToolLogEntry)
    (i : ℕ) : (fuel : ℕ) → LoopResult
  | 0 => ⟨exhausted, conv, log, 0⟩
  | fuel + 1 =>
    match engine conv with
    | .error e => ⟨err_head ++ toString i ++ ": " ++ e, conv, log, 1⟩
    | .ok msg =>
      if msg.tool_calls.isEmpty then
        ⟨msg.content.getD "", conv, log, 1⟩
      else
        let step := msg.tool_calls.map
          (fun tc => (tc, execute_tool impl tool_names tc.name tc.args))
        let conv2 := (conv ++ [Turn.assistant msg]) ++
          step.map (fun p => Turn.tool p.1.id p.2)
        let log2 := log ++ step.map (fun p => ⟨i, p.1.name, p.1.args, p.2⟩)
        let rest := react_loop_aux impl tool_names engine err_head exhausted
          conv2 log2 (i + 1) fuel
        { rest with engine_calls := rest.engine_calls + 1 }

/-- `AgenticPipelineAgent._run_react_loop` (LLM-configured path): analysis
tools only, bound `MAX_TOOL_CALLS`. -/
def run_react_loop (impl : ToolImpl) (engine : Engine) (conv : List Turn) : LoopResult :=
  react_loop_aux impl analysis_tool_names engine
    "Agent loop error at iteration "
    "Max tool call iterations reached. Please review the gathered evidence."
    conv [] 0 MAX_TOOL_CALLS

/-- `IterativeDebuggerAgent._llm_fix_loop`: analysis + modification tools,
bound `max_iterations * 3`. -/
def llm_fix_loop (impl : ToolImpl) (engine : Engine) (conv : List Turn)
    (max_iterations : ℕ) : LoopResult :=
  react_loop_aux impl (analysis_tool_names ++ modification_tool_names) engine
    "Iterative debugger error at step "
    "Max iterations reached in iterative debugger."
    conv [] 0 (max_iterations * 3)

/-! ## The automated (reasoning-engine-free) fix strategy
(`IterativeDebuggerAgent._apply_automated_fix` / `_automated_fix_loop`) -/

/-- The modification-tool invocation selected by a heuristic fix (tool name
plus arguments), or the exhaustion marker. -/
inductive FixAction where
  | scale_all_loads (factor : ℚ)
  | add_reactive_compensation (bus : ℤ) (q_mvar : ℚ)
  | adjust_voltage_setpoint (element : String) (idx : ℤ) (vm_pu : ℚ)
  | toggle_element (element : String) (idx : ℤ) (in_service : Bool)
  | no_fix_available
deriving Repr, DecidableEq

/-- The dict returned by `_apply_automated_fix`. -/
structure FixRecord where
  iteration : ℕ
  action : FixAction
  rationale : String
deriving Repr, DecidableEq

/-- The `"action"` string recorded in a fix dict (the invoked tool's name;
the exhaustion marker is the literal `"no_fix_available"`). -/
def FixAction.name : FixAction → String
  | .scale_all_loads _ => "scale_all_loads"
  | .add_reactive_compensation _ _ => "add_reactive_compensation"
  | .adjust_voltage_setpoint _ _ _ => "adjust_voltage_setpoint"
  | .toggle_element _ _ _ => "toggle_element"
  | .no_fix_available => "no_fix_available"

/-- Strategy 2's lookup: the first rule named `undervoltage`, its evidence
`buses` list, and that list's first entry's `index`; `none` when any step
comes up empty (the Python code then falls through). -/
def first_undervoltage_bus (rules : List RuleResult) : Option ℤ :=
  match rules.find? (fun r => r.rule_name == "undervoltage") with
  | none => none
  | some r =>
    match r.evidence with
    | .buses (b :: _) => some b.index
    | _ => none

/-- `IterativeDebuggerAgent._apply_automated_fix`: the heuristic priority
table keyed by failure category and iteration index. -/
def apply_automated_fix (net : Net) (category : String) (rules : List RuleResult)
    (iteration : ℕ) : FixRecord :=
  if (category == "nonconvergence" || category == "thermal_overload") && iteration == 0 then
    { iteration := iteration, action := .scale_all_loads (4/5)
      rationale := "Reduce all loads by 20% to alleviate stress" }
  else
    match (if category == "voltage_violation" && iteration == 0 then
             first_undervoltage_bus rules else none) with
    | some bus_idx =>
      { iteration := iteration, action := .add_reactive_compensation bus_idx 10
        rationale := "Add 10 Mvar capacitor at under-voltage bus " ++ toString bus_idx }
    | none =>
      if iteration == 1 then
        { iteration := iteration, action := .scale_all_loads (7/10)
          rationale := "Further reduce loads to 70%" }
      else if iteration == 2 && net.ext_grid.length > 0 then
        { iteration := iteration
          action := .adjust_voltage_setpoint "ext_grid"
            (((net.ext_grid.head?).map (fun e => e.index)).getD 0) (51/50)
          rationale := "Raise slack bus voltage to 1.02 pu" }
      else
        match (if iteration == 3 then (net.gen.filter (fun g => !g.in_service)).head?
               else none) with
        | some g =>
          { iteration := iteration, action := .toggle_element "gen" g.index true
            rationale := "Re-enable generator " ++ toString g.index }
        | none =>
          { iteration := iteration, action := .no_fix_available
            rationale := "Exhausted automated fix strategies" }

/-- External collaborators of `_automated_fix_loop`: the solver re-invocation
(`pp.runpp`, which mutates the network; `run_pp_ok = false` models the caught
exception) and the violation counters / modification effects provided by the
`tools/` package (outside `src/`). -/
structure SolverEnv where
  run_pp : Net → Net
  run_pp_ok : Net → Bool
  total_violations : Net → ℕ
  overloaded_line_count : Net → ℕ
  overloaded_trafo_count : Net → ℕ
  exec_action : Net → FixAction → Net

/-- An entry of the automated loop's `fix_history`: either the success
verification dict or a fix-attempt dict. -/
inductive HistEntry where
  | verification (iteration : ℕ) (result : String) (converged : Bool)
  | fix (r : FixRecord)
deriving Repr, DecidableEq

/-- `IterativeDebuggerAgent._automated_fix_loop`, body of the `for iteration
in range(self.max_iterations)` loop.  Each pass: re-solve; if converged with
zero outstanding issues, append the verification entry and stop; otherwise
apply the heuristic fix, append its record, and stop if it was
`no_fix_available`. -/
def automated_fix_loop_aux (env : SolverEnv) (category : String)
    (rules : List RuleResult) (net : Net) (hist : List HistEntry)
    (iteration : ℕ) : (fuel : ℕ) → Net × List HistEntry
  | 0 => (net, hist)
  | fuel + 1 =>
    let net1 := env.run_pp net
    let converged := env.run_pp_ok net && net1.converged
    let total_issues := env.total_violations net1 + env.overloaded_line_count net1
      + env.overloaded_trafo_count net1
    if converged && total_issues == 0 then
      (net1, hist ++ [.verification iteration "All constraints satisfied" true])
    else
      let r := apply_automated_fix net1 category rules iteration
      let net2 := match r.action with
        | .no_fix_available => net1
        | a => env.exec_action net1 a
      let hist2 := hist ++ [.fix r]
      if r.action == FixAction.no_fix_available then (net2, hist2)
      else automated_fix_loop_aux env category rules net2 hist2 (iteration + 1) fuel

/-- `_automated_fix_loop`'s loop with its actual initial state. -/
def automated_fix_loop (env : SolverEnv) (category : String)
    (rules : List RuleResult) (net : Net) (max_iterations : ℕ) :
    Net × List HistEntry :=
  automated_fix_loop_aux env category rules net [] 0 max_iterations

/-- `"\n".join(lines)`. -/
def joinNL : List String → String
  | [] => ""
  | [x] => x
  | x :: y :: xs => x ++ "\n" ++ joinNL (y :: xs)

/-- The `action` string of a history entry (`fix.get("action", "unknown")`). -/
def HistEntry.action_str : HistEntry → String
  | .verification _ _ _ => "verification"
  | .fix r => r.action.name

/-- The `rationale` string of a history entry (`fix.get("rationale", "")`;
the verification dict has no rationale key). -/
def HistEntry.rationale_str : HistEntry → String
  | .verification _ _ _ => ""
  | .fix r => r.rationale

/-- The `iteration` of a history entry. -/
def HistEntry.iteration_of : HistEntry → ℕ
  | .verification i _ _ => i
  | .fix r => r.iteration

/-- `IterativeDebuggerAgent._generate_automated_report`. -/
def generate_automated_report (network_name category : String)
    (fix_history : List HistEntry) (converged : Bool) : String :=
  joinNL (
    ["FINAL REPORT:",
     "",
     "## Network: " ++ network_name,
     "## Failure Category: " ++ category,
     "## Final Status: " ++ (if converged then "CONVERGED ✓" else "NOT CONVERGED ✗"),
     "## Iterations: " ++ toString fix_history.length,
     "",
     "## Fix History"]
    ++ fix_history.map (fun fix =>
        "- Iteration " ++ toString fix.iteration_of ++ ": " ++ fix.action_str
          ++ " — " ++ fix.rationale_str)
    ++ ["",
        "## Summary",
        "Applied " ++ toString fix_history.length ++ " corrective action(s). "
          ++ (if converged then "System restored to feasible operating point."
              else "Further manual intervention required.")])

/-! ## Derived predicates used to state the classification properties -/

/-- A critical finding named `nonconvergence` is present (the first test of
`classify_failure`). -/
def has_critical_nonconvergence (results : List RuleResult) : Bool :=
  (results.filter (fun r => r.severity == "critical")).any
    (fun r => r.rule_name == "nonconvergence")

/-- A `line_overload` or `trafo_overload` finding is present. -/
def has_thermal (results : List RuleResult) : Bool :=
  results.any (fun r => r.rule_name == "line_overload" || r.rule_name == "trafo_overload")

/-- An `undervoltage` or `overvoltage` finding is present. -/
def has_voltage (results : List RuleResult) : Bool :=
  results.any (fun r => r.rule_name == "undervoltage" || r.rule_name == "overvoltage")

/-! ## Theorems -/

/-- C1: `classify_failure` is total and deterministic with fixed precedence:
it returns exactly one of the five categories; `no_failure_detected` iff the
findings list is empty; `nonconvergence` when the critical nonconvergence
finding is present; otherwise `thermal_overload` when a line/trafo overload
finding is present; otherwise `voltage_violation` when an under/overvoltage
finding is present; otherwise `other`; and two calls on the same list agree. -/
theorem classify_failure_total_and_precedence (results : List RuleResult) :
    (RuleEngine.classify_failure results = "no_failure_detected" ∨
     RuleEngine.classify_failure results = "nonconvergence" ∨
     RuleEngine.classify_failure results = "thermal_overload" ∨
     RuleEngine.classify_failure results = "voltage_violation" ∨
     RuleEngine.classify_failure results = "other") ∧
    (RuleEngine.classify_failure results = "no_failure_detected" ↔ results = []) ∧
    (has_critical_nonconvergence results = true →
      RuleEngine.classify_failure results = "nonconvergence") ∧
    (has_critical_nonconvergence results = false → has_thermal results = true →
      RuleEngine.classify_failure results = "thermal_overload") ∧
    (has_critical_nonconvergence results = false → has_thermal results = false →
      has_voltage results = true →
      RuleEngine.classify_failure results = "voltage_violation") ∧
    (results ≠ [] → has_critical_nonconvergence results = false →
      has_thermal results = false → has_voltage results = false →
      RuleEngine.classify_failure results = "other") ∧
    RuleEngine.classify_failure results = RuleEngine.classify_failure results := by
  refine ⟨?_, ?_, ?_, ?_, ?_, ?_, rfl⟩
  · simp only [RuleEngine.classify_failure]
    split_ifs <;> simp
  · constructor
    · intro h
      rcases results with _ | ⟨a, l⟩
      · rfl
      · exfalso
        revert h
        simp only [RuleEngine.classify_failure, List.isEmpty_cons, Bool.false_eq_true,
          if_false]
        split_ifs <;> intro h <;> exact absurd h (by decide)
    · intro h; subst h; rfl
  · intro h
    rcases results with _ | ⟨a, l⟩
    · exact absurd h (by decide)
    · simp only [has_critical_nonconvergence] at h
      simp only [RuleEngine.classify_failure, List.isEmpty_cons, Bool.false_eq_true,
        if_false, h, if_true]
  · intro h1 h2
    rcases results with _ | ⟨a, l⟩
    · exact absurd h2 (by decide)
    · simp only [has_critical_nonconvergence] at h1
      simp only [has_thermal] at h2
      simp only [RuleEngine.classify_failure, List.isEmpty_cons, Bool.false_eq_true,
        if_false, h1, h2, if_true]
  · intro h1 h2 h3
    rcases results with _ | ⟨a, l⟩
    · exact absurd h3 (by decide)
    · simp only [has_critical_nonconvergence] at h1
      simp only [has_thermal] at h2
      simp only [has_voltage] at h3
      simp only [RuleEngine.classify_failure, List.isEmpty_cons, Bool.false_eq_true,
        if_false, h1, h2, h3, if_true]
  · intro hne h1 h2 h3
    rcases results with _ | ⟨a, l⟩
    · exact absurd rfl hne
    · simp only [has_critical_nonconvergence] at h1
      simp only [has_thermal] at h2
      simp only [has_voltage] at h3
      simp only [RuleEngine.classify_failure, List.isEmpty_cons, Bool.false_eq_true,
        if_false, h1, h2, h3]

/-- Witness for C1 at a concrete findings list: a critical nonconvergence
finding classifies as `nonconvergence`, and the empty list as
`no_failure_detected`. -/
theorem classify_failure_total_and_precedence_witness :
    RuleEngine.classify_failure
      [{ rule_name := "nonconvergence", triggered := true, severity := "critical"
         description := "d" }] = "nonconvergence" ∧
    RuleEngine.classify_failure [] = "no_failure_detected" := by
  constructor
  · exact (classify_failure_total_and_precedence _).2.2.1 (by decide)
  · exact (classify_failure_total_and_precedence []).2.1.mpr rfl

/-- C8: the undervoltage (resp. overvoltage) rule triggers iff at least one
bus is recorded below (resp. above) the bound, with severity `warning` when
the out-of-band count is at most 3 and `critical` when it exceeds 3. -/
theorem voltage_rules_trigger_and_escalate (rpt : EvidenceReport) :
    ((RuleEngine.rule_undervoltage rpt).triggered = true ↔
      rpt.undervoltage_buses.length > 0) ∧
    (rpt.undervoltage_buses.length ≤ 3 →
      (RuleEngine.rule_undervoltage rpt).severity = "warning") ∧
    (rpt.undervoltage_buses.length > 3 →
      (RuleEngine.rule_undervoltage rpt).severity = "critical") ∧
    ((RuleEngine.rule_overvoltage rpt).triggered = true ↔
      rpt.overvoltage_buses.length > 0) ∧
    (rpt.overvoltage_buses.length ≤ 3 →
      (RuleEngine.rule_overvoltage rpt).severity = "warning") ∧
    (rpt.overvoltage_buses.length > 3 →
      (RuleEngine.rule_overvoltage rpt).severity = "critical") := by
  refine ⟨by simp [RuleEngine.rule_undervoltage], ?_, ?_,
          by simp [RuleEngine.rule_overvoltage], ?_, ?_⟩
  · intro h; simp [RuleEngine.rule_undervoltage, h]
  · intro h; simp [RuleEngine.rule_undervoltage, Nat.not_le.mpr h, h]
  · intro h; simp [RuleEngine.rule_overvoltage, h]
  · intro h; simp [RuleEngine.rule_overvoltage, Nat.not_le.mpr h, h]

/-- Witness for C8: one bus at 0.90 pu triggers undervoltage with severity
`warning`; an in-band report does not trigger. -/
theorem voltage_rules_trigger_and_escalate_witness :
    ((RuleEngine.rule_undervoltage
        { undervoltage_buses := [{ index := 0, vm_pu := 9/10 }] }).triggered = true) ∧
    ((RuleEngine.rule_undervoltage
        { undervoltage_buses := [{ index := 0, vm_pu := 9/10 }] }).severity = "warning") ∧
    ((RuleEngine.rule_undervoltage { }).triggered = false) := by
  refine ⟨(voltage_rules_trigger_and_escalate _).1.mpr (by decide),
          (voltage_rules_trigger_and_escalate _).2.1 (by decide), ?_⟩
  have h := (voltage_rules_trigger_and_escalate { }).1
  simp only [EvidenceReport.undervoltage_buses] at h
  rcases hb : (RuleEngine.rule_undervoltage { }).triggered
  · rfl
  · exact absurd (h.mp hb) (by decide)

/-- C2: `collect`, embedded as a total function (it never raises), leaves all
result-derived fields at their unset defaults when the solve did not converge,
while the input-derived fields are computed from the network's input tables. -/
theorem collect_unconverged_fields (self : EvidenceCollector) (net : Net)
    (h : net.converged = false) :
    (self.collect net).converged = false ∧
    (self.collect net).voltage_min_pu = none ∧
    (self.collect net).voltage_max_pu = none ∧
    (self.collect net).voltage_mean_pu = none ∧
    (self.collect net).max_line_loading_pct = none ∧
    (self.collect net).max_trafo_loading_pct = none ∧
    (self.collect net).undervoltage_buses = [] ∧
    (self.collect net).overvoltage_buses = [] ∧
    (self.collect net).overloaded_lines = [] ∧
    (self.collect net).overloaded_trafos = [] ∧
    (self.collect net).gens_at_q_limit = [] ∧
    (self.collect net).total_gen_p_mw = 0 ∧
    (self.collect net).total_gen_q_mvar = 0 ∧
    (self.collect net).total_load_p_mw
      = sumBy (net.load.filter (fun l => l.in_service)) (fun l => l.p_mw) ∧
    (self.collect net).total_load_q_mvar
      = sumBy (net.load.filter (fun l => l.in_service)) (fun l => l.q_mvar) ∧
    (self.collect net).input_load_count = (net.load.filter (fun l => l.in_service)).length ∧
    (self.collect net).input_gen_count = (net.gen.filter (fun g => g.in_service)).length ∧
    (self.collect net).input_ext_grid_count
      = (net.ext_grid.filter (fun e => e.in_service)).length ∧
    (self.collect net).input_gen_capacity_mw
      = pyround 2 (sumBy (net.gen.filter (fun g => g.in_service)) EvidenceCollector.max_p_of) ∧
    (self.collect net).input_load_details.length
      = min 15 (net.load.filter (fun l => l.in_service)).length ∧
    (self.collect net).input_gen_details.length
      = (net.gen.filter (fun g => g.in_service)).length := by
  rcases net with ⟨conv, bus, line, trafo, gen, sgen, ext, load, rb, rl, rt, rg, rs, re, di⟩
  cases conv
  · cases di <;>
      refine ⟨rfl, rfl, rfl, rfl, rfl, rfl, rfl, rfl, rfl, rfl, rfl, rfl, rfl, rfl, rfl,
        rfl, rfl, rfl, rfl, ?_, ?_⟩ <;>
      simp [EvidenceCollector.collect, EvidenceCollector.collect_input_data,
        EvidenceCollector.collect_diagnostics, List.length_take, List.length_mergeSort]
  · exact Bool.noConfusion h

/-- Witness for C2 on a concrete unconverged network with one in-service and
one out-of-service load. -/
theorem collect_unconverged_fields_witness :
    (EvidenceCollector.collect { }
      { converged := false, bus := [0, 1], line := [], trafo := [], gen := [], sgen := []
        ext_grid := [{ index := 0, vm_pu := 1, in_service := true }]
        load := [{ index := 0, bus := 1, p_mw := 50, q_mvar := 10, in_service := true },
                 { index := 1, bus := 1, p_mw := 5, q_mvar := 1, in_service := false }]
        res_bus := [], res_line := [], res_trafo := [], res_gen := [], res_sgen := []
        res_ext_grid := [], diag := some [] }).voltage_min_pu = none ∧
    (EvidenceCollector.collect { }
      { converged := false, bus := [0, 1], line := [], trafo := [], gen := [], sgen := []
        ext_grid := [{ index := 0, vm_pu := 1, in_service := true }]
        load := [{ index := 0, bus := 1, p_mw := 50, q_mvar := 10, in_service := true },
                 { index := 1, bus := 1, p_mw := 5, q_mvar := 1, in_service := false }]
        res_bus := [], res_line := [], res_trafo := [], res_gen := [], res_sgen := []
        res_ext_grid := [], diag := some [] }).total_load_p_mw = 50 := by
  have h := collect_unconverged_fields { }
    { converged := false, bus := [0, 1], line := [], trafo := [], gen := [], sgen := []
      ext_grid := [{ index := 0, vm_pu := 1, in_service := true }]
      load := [{ index := 0, bus := 1, p_mw := 50, q_mvar := 10, in_service := true },
               { index := 1, bus := 1, p_mw := 5, q_mvar := 1, in_service := false }]
      res_bus := [], res_line := [], res_trafo := [], res_gen := [], res_sgen := []
      res_ext_grid := [], diag := some [] } rfl
  refine ⟨h.2.1, ?_⟩
  rw [h.2.2.2.2.2.2.2.2.2.2.2.2.2.1]
  norm_num [sumBy]

/-- C10 (implicit): on an unconverged network with strictly positive total
in-service active load, the `generation_deficit` rule always triggers with
severity `critical`, because `total_gen_p_mw` stays `0.0` when unconverged so
the computed deficit equals the full load. -/
theorem unconverged_generation_deficit_always_triggers (self : EvidenceCollector)
    (net : Net) (h : net.converged = false)
    (hload : 0 < sumBy (net.load.filter (fun l => l.in_service)) (fun l => l.p_mw)) :
    (RuleEngine.rule_generation_deficit (self.collect net)).triggered = true ∧
    (RuleEngine.rule_generation_deficit (self.collect net)).severity = "critical" ∧
    (self.collect net).total_gen_p_mw = 0 := by
  obtain ⟨-, -, -, -, -, -, -, -, -, -, -, hgen, -, hloadEq, -⟩ :=
    collect_unconverged_fields self net h
  have htrig : (RuleEngine.rule_generation_deficit (self.collect net)).triggered = true := by
    simp only [RuleEngine.rule_generation_deficit, decide_eq_true_eq, hgen, hloadEq]
    linarith
  have hsev : (RuleEngine.rule_generation_deficit (self.collect net)).severity
      = if (RuleEngine.rule_generation_deficit (self.collect net)).triggered = true
        then "critical" else "info" := rfl
  exact ⟨htrig, by rw [hsev, if_pos htrig], hgen⟩

/-- Witness for C10: a concrete unconverged network with 500 MW of in-service
load. -/
theorem unconverged_generation_deficit_always_triggers_witness :
    (RuleEngine.rule_generation_deficit (({ } : EvidenceCollector).collect
      { converged := false, bus := [0], line := [], trafo := [], gen := [], sgen := []
        ext_grid := []
        load := [{ index := 0, bus := 0, p_mw := 500, q_mvar := 100, in_service := true }]
        res_bus := [], res_line := [], res_trafo := [], res_gen := [], res_sgen := []
        res_ext_grid := [], diag := some [] })).triggered = true := by
  exact (unconverged_generation_deficit_always_triggers { } _ rfl (by norm_num [sumBy])).1

/-- `List.any` is invariant under permutation. -/
theorem any_eq_of_perm {α : Type} {l₁ l₂ : List α} (h : l₁.Perm l₂) (p : α → Bool) :
    l₁.any p = l₂.any p := by
  induction h with
  | nil => rfl
  | cons a _ ih => simp [ih]
  | swap a b l => simp [Bool.or_comm, Bool.or_left_comm]
  | trans _ _ ih₁ ih₂ => rw [ih₁, ih₂]

/-- `List.isEmpty` is invariant under permutation. -/
theorem isEmpty_eq_of_perm {α : Type} {l₁ l₂ : List α} (h : l₁.Perm l₂) :
    l₁.isEmpty = l₂.isEmpty := by
  have := h.length_eq
  cases l₁ <;> cases l₂ <;> simp_all

/-- `classify_failure` only inspects the findings list through emptiness and
membership tests, so it is invariant under permutation of the findings. -/
theorem classify_failure_eq_of_perm {l₁ l₂ : List RuleResult} (h : l₁.Perm l₂) :
    RuleEngine.classify_failure l₁ = RuleEngine.classify_failure l₂ := by
  simp only [RuleEngine.classify_failure]
  rw [isEmpty_eq_of_perm h,
      any_eq_of_perm (h.filter (fun r => r.severity == "critical"))
        (fun r => r.rule_name == "nonconvergence"),
      any_eq_of_perm h (fun r => r.rule_name == "line_overload" || r.rule_name == "trafo_overload"),
      any_eq_of_perm h (fun r => r.rule_name == "undervoltage" || r.rule_name == "overvoltage")]

/-- C7: rule evaluation is order-independent: for every permutation of the
rule declaration order and every report, the triggered findings (with their
severities and evidence payloads) agree up to output order, and the failure
category is identical. -/
theorem evaluate_order_independent (rules : List (EvidenceReport → RuleResult))
    (h : rules.Perm RuleEngine.all_rules) (rpt : EvidenceReport) :
    (RuleEngine.evaluateWith rules rpt).Perm (RuleEngine.evaluate rpt) ∧
    RuleEngine.classify_failure (RuleEngine.evaluateWith rules rpt)
      = RuleEngine.classify_failure (RuleEngine.evaluate rpt) := by
  have hp : (RuleEngine.evaluateWith rules rpt).Perm (RuleEngine.evaluate rpt) := by
    unfold RuleEngine.evaluate RuleEngine.evaluateWith
    exact List.Perm.filter (fun r => r.triggered) (List.Perm.map (fun f => f rpt) h)
  exact ⟨hp, classify_failure_eq_of_perm hp⟩

/-- Witness for C7: the reversed rule battery classifies the default
(unconverged) report identically to the declared order. -/
theorem evaluate_order_independent_witness :
    RuleEngine.classify_failure (RuleEngine.evaluateWith RuleEngine.all_rules.reverse { })
      = RuleEngine.classify_failure (RuleEngine.evaluate { }) :=
  (evaluate_order_independent RuleEngine.all_rules.reverse
    (List.reverse_perm RuleEngine.all_rules) { }).2

/-- C6: tool dispatch never propagates an exception: every call returns a
structured result; an unknown tool name yields `{"error": "Unknown tool:
<name>"}`, and an exception from a known tool's body is caught and yielded as
`{"error": <message>}`. -/
theorem execute_tool_contains_errors (impl : ToolImpl) (names : List String)
    (name : String) (args : Args) :
    ((∃ v, execute_tool impl names name args = .ok v) ∨
     (∃ m, execute_tool impl names name args = .errObj m)) ∧
    (names.contains name = false →
      execute_tool impl names name args = .errObj ("Unknown tool: " ++ name)) ∧
    (∀ e, names.contains name = true → impl name args = .error e →
      execute_tool impl names name args = .errObj e) ∧
    (∀ v, names.contains name = true → impl name args = .ok v →
      execute_tool impl names name args = .ok v) := by
  refine ⟨?_, ?_, ?_, ?_⟩
  · by_cases hc : names.contains name
    · have hm : name ∈ names := by simpa using hc
      cases himpl : impl name args with
      | ok v => exact Or.inl ⟨v, by simp [execute_tool, hm, himpl]⟩
      | error e => exact Or.inr ⟨e, by simp [execute_tool, hm, himpl]⟩
    · have hm : ¬ name ∈ names := by simpa using hc
      exact Or.inr ⟨"Unknown tool: " ++ name, by simp [execute_tool, hm]⟩
  · intro hc
    have hm : ¬ name ∈ names := by simpa using hc
    simp [execute_tool, hm]
  · intro e hc himpl
    have hm : name ∈ names := by simpa using hc
    simp [execute_tool, hm, himpl]
  · intro v hc himpl
    have hm : name ∈ names := by simpa using hc
    simp [execute_tool, hm, himpl]

/-- Witness for C6: a concrete unknown name and a concrete raising tool, for
the analysis dispatcher's key set. -/
theorem execute_tool_contains_errors_witness :
    execute_tool (fun _ _ => Except.error "boom") analysis_tool_names "frobnicate" []
      = .errObj ("Unknown tool: " ++ "frobnicate") ∧
    execute_tool (fun _ _ => Except.error "boom") analysis_tool_names "get_bus_data" []
      = .errObj "boom" := by
  constructor
  · exact (execute_tool_contains_errors _ _ _ _).2.1 (by decide)
  · exact (execute_tool_contains_errors _ _ _ _).2.2.1 "boom" (by decide) rfl

/-- The loop body never invokes the engine more often than the remaining
iteration budget. -/
theorem react_loop_aux_engine_calls_le (impl : ToolImpl) (tool_names : List String)
    (engine : Engine) (ep ex : String) :
    ∀ fuel conv log i,
      (react_loop_aux impl tool_names engine ep ex conv log i fuel).engine_calls ≤ fuel := by
  intro fuel
  induction fuel with
  | zero => intro conv log i; exact Nat.le_refl 0
  | succ n ih =>
    intro conv log i
    cases hE : engine conv with
    | error e => simp [react_loop_aux, hE]
    | ok msg =>
      by_cases ht : msg.tool_calls.isEmpty
      · simp [react_loop_aux, hE, ht]
      · simp only [react_loop_aux, hE, ht, Bool.false_eq_true, if_false]
        exact Nat.succ_le_succ (ih _ _ _)

/-- If the engine requests at least one tool on every turn, the loop exhausts
its budget and returns the configured terminal message. -/
theorem react_loop_aux_exhausts (impl : ToolImpl) (tool_names : List String)
    (engine : Engine) (ep ex : String)
    (h : ∀ t, ∃ m, engine t = Except.ok m ∧ m.tool_calls ≠ []) :
    ∀ fuel conv log i,
      (react_loop_aux impl tool_names engine ep ex conv log i fuel).report = ex := by
  intro fuel
  induction fuel with
  | zero => intro conv log i; rfl
  | succ n ih =>
    intro conv log i
    obtain ⟨m, hm, hne⟩ := h conv
    have hemp : m.tool_calls.isEmpty = false := by
      cases hmt : m.tool_calls
      · exact absurd hmt hne
      · rfl
    simp only [react_loop_aux, hm, hemp, Bool.false_eq_true, if_false]
    exact ih _ _ _

/-- C3: both bounded loops terminate inside their configured iteration budget
for every reasoning engine: the analysis loop makes at most `MAX_TOOL_CALLS`
(= 10) engine calls and the fix-verify loop at most `max_iterations * 3`; an
engine that requests a tool on every turn drives each loop to its terminal
"maximum iterations reached" report instead of looping forever. -/
theorem react_loops_iteration_bounded :
    MAX_TOOL_CALLS = 10 ∧
    (∀ (impl : ToolImpl) (engine : Engine) (conv : List Turn),
      (run_react_loop impl engine conv).engine_calls ≤ MAX_TOOL_CALLS) ∧
    (∀ (impl : ToolImpl) (engine : Engine) (conv : List Turn),
      (∀ t, ∃ m, engine t = Except.ok m ∧ m.tool_calls ≠ []) →
      (run_react_loop impl engine conv).report
        = "Max tool call iterations reached. Please review the gathered evidence.") ∧
    (∀ (impl : ToolImpl) (engine : Engine) (conv : List Turn) (max_iterations : ℕ),
      (llm_fix_loop impl engine conv max_iterations).engine_calls ≤ max_iterations * 3) ∧
    (∀ (impl : ToolImpl) (engine : Engine) (conv : List Turn) (max_iterations : ℕ),
      (∀ t, ∃ m, engine t = Except.ok m ∧ m.tool_calls ≠ []) →
      (llm_fix_loop impl engine conv max_iterations).report
        = "Max iterations reached in iterative debugger.") := by
  refine ⟨rfl, ?_, ?_, ?_, ?_⟩
  · intro impl engine conv
    exact react_loop_aux_engine_calls_le impl analysis_tool_names engine _ _ _ _ _ _
  · intro impl engine conv h
    exact react_loop_aux_exhausts impl analysis_tool_names engine _ _ h _ _ _ _
  · intro impl engine conv k
    exact react_loop_aux_engine_calls_le impl _ engine _ _ _ _ _ _
  · intro impl engine conv k h
    exact react_loop_aux_exhausts impl _ engine _ _ h _ _ _ _

/-- Witness for C3: a concrete engine that always requests
`get_network_summary` exhausts both loops' budgets. -/
theorem react_loops_iteration_bounded_witness :
    (run_react_loop (fun _ _ => Except.ok JVal.null)
        (fun _ => Except.ok (⟨none, [⟨"1", "get_network_summary", []⟩]⟩ : EngineMsg)) []).report
      = "Max tool call iterations reached. Please review the gathered evidence." ∧
    (llm_fix_loop (fun _ _ => Except.ok JVal.null)
        (fun _ => Except.ok (⟨none, [⟨"1", "get_network_summary", []⟩]⟩ : EngineMsg)) [] 2).report
      = "Max iterations reached in iterative debugger." := by
  constructor
  · exact react_loops_iteration_bounded.2.2.1 _ _ _
      (fun t => ⟨_, rfl, by simp⟩)
  · exact react_loops_iteration_bounded.2.2.2.2 _ _ _ 2
      (fun t => ⟨_, rfl, by simp⟩)

/-- C5: whenever the verify step at the head of a fix-loop iteration finds
the solver converged with zero outstanding issues, the loop stops on that same
iteration, appends exactly one `verification` history entry (with
`converged = true`), and applies no further fix regardless of the remaining
iteration budget. -/
theorem fix_loop_stops_on_success (env : SolverEnv) (category : String)
    (rules : List RuleResult) (net : Net) (hist : List HistEntry)
    (iteration fuel : ℕ)
    (hok : env.run_pp_ok net = true)
    (hconv : (env.run_pp net).converged = true)
    (hzero : env.total_violations (env.run_pp net)
      + env.overloaded_line_count (env.run_pp net)
      + env.overloaded_trafo_count (env.run_pp net) = 0) :
    automated_fix_loop_aux env category rules net hist iteration (fuel + 1)
      = (env.run_pp net,
         hist ++ [HistEntry.verification iteration "All constraints satisfied" true]) := by
  simp [automated_fix_loop_aux, hok, hconv, hzero]

/-- Witness for C5: a concrete environment whose solve converges cleanly
stops the loop at iteration 0 with the single verification entry, with five
budget iterations left over. -/
theorem fix_loop_stops_on_success_witness :
    automated_fix_loop_aux
      { run_pp := fun n => { n with converged := true }, run_pp_ok := fun _ => true
        total_violations := fun _ => 0, overloaded_line_count := fun _ => 0
        overloaded_trafo_count := fun _ => 0, exec_action := fun n _ => n }
      "nonconvergence" []
      { converged := false, bus := [], line := [], trafo := [], gen := [], sgen := []
        ext_grid := [], load := [], res_bus := [], res_line := [], res_trafo := []
        res_gen := [], res_sgen := [], res_ext_grid := [], diag := none }
      [] 0 6
      = ({ converged := true, bus := [], line := [], trafo := [], gen := [], sgen := []
           ext_grid := [], load := [], res_bus := [], res_line := [], res_trafo := []
           res_gen := [], res_sgen := [], res_ext_grid := [], diag := none },
         [HistEntry.verification 0 "All constraints satisfied" true]) := by
  exact fix_loop_stops_on_success _ _ _ _ _ _ _ rfl rfl rfl

/-- C9 counterexample: the final-model-answer path relays the engine's text
verbatim (`message.content or ""`), so an engine whose final message has empty
content makes the analysis loop terminate with an empty report string. -/
theorem react_loop_final_report_can_be_empty :
    (run_react_loop (fun _ _ => Except.ok JVal.null)
      (fun _ => Except.ok (⟨some "", []⟩ : EngineMsg)) []).report = "" := rfl

/-- A joined line list is at least as long as its first line. -/
theorem joinNL_length_ge (x : String) (xs : List String) :
    x.length ≤ (joinNL (x :: xs)).length := by
  cases xs with
  | nil => exact Nat.le_refl _
  | cons y ys =>
    simp only [joinNL, String.length_append]
    omega

/-- The automated fallback report always starts with "FINAL REPORT:" and is
therefore never empty. -/
theorem generate_automated_report_ne_empty (network_name category : String)
    (fix_history : List HistEntry) (converged : Bool) :
    generate_automated_report network_name category fix_history converged ≠ "" := by
  intro h
  have hlen := joinNL_length_ge "FINAL REPORT:"
    (["",
      "## Network: " ++ network_name,
      "## Failure Category: " ++ category,
      "## Final Status: " ++ (if converged then "CONVERGED ✓" else "NOT CONVERGED ✗"),
      "## Iterations: " ++ toString fix_history.length,
      "",
      "## Fix History"]
     ++ fix_history.map (fun fix =>
          "- Iteration " ++ toString fix.iteration_of ++ ": " ++ fix.action_str
            ++ " — " ++ fix.rationale_str)
     ++ ["",
         "## Summary",
         "Applied " ++ toString fix_history.length ++ " corrective action(s). "
           ++ (if converged then "System restored to feasible operating point."
               else "Further manual intervention required.")])
  rw [show ("FINAL REPORT:" ::
      (["",
        "## Network: " ++ network_name,
        "## Failure Category: " ++ category,
        "## Final Status: " ++ (if converged then "CONVERGED ✓" else "NOT CONVERGED ✗"),
        "## Iterations: " ++ toString fix_history.length,
        "",
        "## Fix History"]
       ++ fix_history.map (fun fix =>
            "- Iteration " ++ toString fix.iteration_of ++ ": " ++ fix.action_str
              ++ " — " ++ fix.rationale_str)
       ++ ["",
           "## Summary",
           "Applied " ++ toString fix_history.length ++ " corrective action(s). "
             ++ (if converged then "System restored to feasible operating point."
                 else "Further manual intervention required.")]))
    = (["FINAL REPORT:",
        "",
        "## Network: " ++ network_name,
        "## Failure Category: " ++ category,
        "## Final Status: " ++ (if converged then "CONVERGED ✓" else "NOT CONVERGED ✗"),
        "## Iterations: " ++ toString fix_history.length,
        "",
        "## Fix History"]
       ++ fix_history.map (fun fix =>
            "- Iteration " ++ toString fix.iteration_of ++ ": " ++ fix.action_str
              ++ " — " ++ fix.rationale_str)
       ++ ["",
           "## Summary",
           "Applied " ++ toString fix_history.length ++ " corrective action(s). "
             ++ (if converged then "System restored to feasible operating point."
                 else "Further manual intervention required.")]) from rfl] at hlen
  rw [show (["FINAL REPORT:",
        "",
        "## Network: " ++ network_name,
        "## Failure Category: " ++ category,
        "## Final Status: " ++ (if converged then "CONVERGED ✓" else "NOT CONVERGED ✗"),
        "## Iterations: " ++ toString fix_history.length,
        "",
        "## Fix History"]
       ++ fix_history.map (fun fix =>
            "- Iteration " ++ toString fix.iteration_of ++ ": " ++ fix.action_str
              ++ " — " ++ fix.rationale_str)
       ++ ["",
           "## Summary",
           "Applied " ++ toString fix_history.length ++ " corrective action(s). "
             ++ (if converged then "System restored to feasible operating point."
                 else "Further manual intervention required.")]) = _ from rfl,
      ← generate_automated_report, h] at hlen
  exact absurd hlen (by decide)

/-- Every non-final terminal path of the shared loop body returns a non-empty
report; an empty report can only arise from the engine's own final answer
being empty. -/
theorem react_loop_aux_empty_report (impl : ToolImpl) (tool_names : List String)
    (engine : Engine) (ep ex : String) (hex : ex ≠ "") :
    ∀ fuel conv log i,
      (react_loop_aux impl tool_names engine ep ex conv log i fuel).report = "" →
      ∃ t m, engine t = Except.ok m ∧ m.tool_calls = [] ∧ m.content.getD "" = "" := by
  intro fuel
  induction fuel with
  | zero => intro conv log i h; exact absurd h hex
  | succ n ih =>
    intro conv log i
    cases hE : engine conv with
    | error e =>
      intro h
      exfalso
      simp only [react_loop_aux, hE] at h
      have hl := congrArg String.length h
      simp only [String.length_append,
        show String.length ": " = 2 from rfl,
        show String.length "" = 0 from rfl] at hl
      omega
    | ok msg =>
      by_cases ht : msg.tool_calls.isEmpty
      · intro h
        simp only [react_loop_aux, hE, ht, if_true] at h
        exact ⟨conv, msg, hE, List.isEmpty_iff.mp ht, h⟩
      · intro h
        simp only [react_loop_aux, hE, ht, Bool.false_eq_true, if_false] at h
        exact ih _ _ _ h

/-- C9 (amended): the budget-exhaustion, engine-error and automated-fallback
terminal paths always yield non-empty reports; the one remaining terminal
path — the verbatim final model answer — is empty exactly when the engine's
final message text was empty, which the code (`message.content or ""`)
permits. -/
theorem terminal_reports_nonempty (impl : ToolImpl) (engine : Engine)
    (conv : List Turn) (max_iterations : ℕ) :
    ((run_react_loop impl engine conv).report = "" →
      ∃ t m, engine t = Except.ok m ∧ m.tool_calls = [] ∧ m.content.getD "" = "") ∧
    ((llm_fix_loop impl engine conv max_iterations).report = "" →
      ∃ t m, engine t = Except.ok m ∧ m.tool_calls = [] ∧ m.content.getD "" = "") ∧
    (∀ (network_name category : String) (fix_history : List HistEntry) (converged : Bool),
      generate_automated_report network_name category fix_history converged ≠ "") := by
  refine ⟨?_, ?_, generate_automated_report_ne_empty⟩
  · exact react_loop_aux_empty_report impl analysis_tool_names engine _ _ (by decide) _ _ _ _
  · exact react_loop_aux_empty_report impl _ engine _ _ (by decide) _ _ _ _

/-- Witness for C9's amended statement: the empty-final-answer engine is
convicted by the theorem at a concrete run; the fallback report on an empty
history is non-empty. -/
theorem terminal_reports_nonempty_witness :
    (∃ t m, (fun _ => Except.ok (⟨some "", []⟩ : EngineMsg) : Engine) t = Except.ok m ∧
      m.tool_calls = [] ∧ m.content.getD "" = "") ∧
    generate_automated_report "net1" "nonconvergence" [] false ≠ "" := by
  constructor
  · exact (terminal_reports_nonempty (fun _ _ => Except.ok JVal.null)
      (fun _ => Except.ok (⟨some "", []⟩ : EngineMsg)) [] 1).1 rfl
  · exact (terminal_reports_nonempty (fun _ _ => Except.ok JVal.null)
      (fun _ => Except.ok (⟨some "", []⟩ : EngineMsg)) [] 1).2.2 "net1" "nonconvergence" [] false

/-- C4: the reasoning-engine-free fix strategy is a fixed priority table:
iteration 0 scales loads by 0.8 for nonconvergence/thermal, or injects 10 Mvar
at the first bus reported by the undervoltage rule for voltage violations;
iteration 1 scales loads by 0.7; iteration 2 raises the first ext_grid
setpoint to 1.02 pu; iteration 3 re-enables the first out-of-service
generator; when no branch matches, it returns the `no_fix_available` marker. -/
theorem fallback_fix_priority_table (net : Net) (category : String)
    (rules : List RuleResult) (iteration : ℕ) :
    ((category = "nonconvergence" ∨ category = "thermal_overload") → iteration = 0 →
      apply_automated_fix net category rules iteration
        = { iteration := 0, action := .scale_all_loads (4/5)
            rationale := "Reduce all loads by 20% to alleviate stress" }) ∧
    (∀ b, category = "voltage_violation" → iteration = 0 →
      first_undervoltage_bus rules = some b →
      apply_automated_fix net category rules iteration
        = { iteration := 0, action := .add_reactive_compensation b 10
            rationale := "Add 10 Mvar capacitor at under-voltage bus " ++ toString b }) ∧
    (iteration = 1 →
      apply_automated_fix net category rules iteration
        = { iteration := 1, action := .scale_all_loads (7/10)
            rationale := "Further reduce loads to 70%" }) ∧
    (∀ e es, iteration = 2 → net.ext_grid = e :: es →
      apply_automated_fix net category rules iteration
        = { iteration := 2, action := .adjust_voltage_setpoint "ext_grid" e.index (51/50)
            rationale := "Raise slack bus voltage to 1.02 pu" }) ∧
    (∀ g gs, iteration = 3 → net.gen.filter (fun x => !x.in_service) = g :: gs →
      apply_automated_fix net category rules iteration
        = { iteration := 3, action := .toggle_element "gen" g.index true
            rationale := "Re-enable generator " ++ toString g.index }) ∧
    (¬ (iteration = 0 ∧ (category = "nonconvergence" ∨ category = "thermal_overload"
          ∨ (category = "voltage_violation" ∧ first_undervoltage_bus rules ≠ none))) →
     iteration ≠ 1 →
     ¬ (iteration = 2 ∧ net.ext_grid ≠ []) →
     ¬ (iteration = 3 ∧ net.gen.filter (fun x => !x.in_service) ≠ []) →
      (apply_automated_fix net category rules iteration).action = .no_fix_available) := by
  refine ⟨?_, ?_, ?_, ?_, ?_, ?_⟩
  · intro hcat h0
    subst h0
    rcases hcat with rfl | rfl <;> rfl
  · intro b hcat h0 hb
    subst hcat; subst h0
    simp [apply_automated_fix, hb]
  · intro h1
    subst h1
    simp [apply_automated_fix]
  · intro e es h2 hext
    subst h2
    simp [apply_automated_fix, hext]
  · intro g gs h3 hfil
    subst h3
    simp [apply_automated_fix, hfil]
  · intro h1 h2 h3 h4
    rcases iteration with _ | _ | _ | _ | m
    · have h1' : ¬ (category = "nonconvergence" ∨ category = "thermal_overload"
          ∨ (category = "voltage_violation" ∧ first_undervoltage_bus rules ≠ none)) :=
        fun hc => h1 ⟨rfl, hc⟩
      push_neg at h1'
      obtain ⟨hnc, hth, hvv⟩ := h1'
      have b1 : (category == "nonconvergence") = false := beq_eq_false_iff_ne.mpr hnc
      have b2 : (category == "thermal_overload") = false := beq_eq_false_iff_ne.mpr hth
      by_cases hceq : category = "voltage_violation"
      · subst hceq
        have hfub : first_undervoltage_bus rules = none := hvv rfl
        simp [apply_automated_fix, b1, b2, hfub]
      · have b3 : (category == "voltage_violation") = false := beq_eq_false_iff_ne.mpr hceq
        simp [apply_automated_fix, b1, b2, b3]
    · exact absurd rfl h2
    · have hext : net.ext_grid = [] := by
        push_neg at h3
        exact h3 rfl
      simp [apply_automated_fix, hext]
    · have hfil : net.gen.filter (fun x => !x.in_service) = [] := by
        push_neg at h4
        exact h4 rfl
      simp [apply_automated_fix, hfil]
    · have e0 : ((m + 4 : ℕ) == 0) = false := by rw [beq_eq_false_iff_ne]; omega
      have e1 : ((m + 4 : ℕ) == 1) = false := by rw [beq_eq_false_iff_ne]; omega
      have e2 : ((m + 4 : ℕ) == 2) = false := by rw [beq_eq_false_iff_ne]; omega
      have e3 : ((m + 4 : ℕ) == 3) = false := by rw [beq_eq_false_iff_ne]; omega
      simp [apply_automated_fix, e0, e1, e2, e3]

/-- Witness for C4: on a concrete network, nonconvergence at iteration 0
selects load scaling by 0.8 and iteration 1 selects 0.7. -/
theorem fallback_fix_priority_table_witness :
    apply_automated_fix
      { converged := false, bus := [], line := [], trafo := [], gen := [], sgen := []
        ext_grid := [], load := [], res_bus := [], res_line := [], res_trafo := []
        res_gen := [], res_sgen := [], res_ext_grid := [], diag := none }
      "nonconvergence" [] 0
      = { iteration := 0, action := .scale_all_loads (4/5)
          rationale := "Reduce all loads by 20% to alleviate stress" } ∧
    apply_automated_fix
      { converged := false, bus := [], line := [], trafo := [], gen := [], sgen := []
        ext_grid := [], load := [], res_bus := [], res_line := [], res_trafo := []
        res_gen := [], res_sgen := [], res_ext_grid := [], diag := none }
      "nonconvergence" [] 1
      = { iteration := 1, action := .scale_all_loads (7/10)
          rationale := "Further reduce loads to 70%" } := by
  constructor
  · exact (fallback_fix_priority_table _ _ _ _).1 (Or.inl rfl) rfl
  · exact (fallback_fix_priority_table _ _ _ _).2.2.1 rfl

end GridDebug
